import Mathlib

/-
Verification of the Text-llm generation service (`modal_app.py`).

The Python source is shallowly embedded below: Python `str` values become
Lean `String`/`List Char`, dictionaries become association lists, JSON
values become the inductive `JValue`, and code that can raise becomes
`Except`-valued. Substring tests (`in`), `str.split`, `str.strip`,
`str.lower` and f-string formatting are modelled by executable functions
on `List Char`/`String`.
-/

set_option maxRecDepth 8000
set_option maxHeartbeats 1000000
set_option linter.unusedVariables false

/-! ## Substring machinery

`isPre p l` tests whether `p` is an initial segment of `l`;
`countSub p l` counts the offsets at which `p` occurs inside `l`
(for nonempty `p`); `hasSub p l` is the Boolean occurrence test that
models the Python `in` operator on strings. -/

def isPre : List Char → List Char → Bool
  | [], _ => true
  | _ :: _, [] => false
  | a :: as, b :: bs => if a = b then isPre as bs else false

def countSub (p : List Char) : List Char → Nat
  | [] => 0
  | c :: rest => (if isPre p (c :: rest) then 1 else 0) + countSub p rest

def hasSub (p : List Char) : List Char → Bool
  | [] => false
  | c :: rest => isPre p (c :: rest) || hasSub p rest

theorem isPre_length {p l : List Char} (h : isPre p l = true) : p.length ≤ l.length := by
  induction p generalizing l with
  | nil => simp
  | cons a as ih =>
    cases l with
    | nil => simp [isPre] at h
    | cons b bs =>
      simp only [isPre] at h
      split at h
      · simpa using ih h
      · exact absurd h (by simp)

theorem isPre_append_right {p x : List Char} (z : List Char) (h : isPre p x = true) :
    isPre p (x ++ z) = true := by
  induction p generalizing x with
  | nil => simp [isPre]
  | cons a as ih =>
    cases x with
    | nil => simp [isPre] at h
    | cons b bs =>
      simp only [isPre] at h ⊢
      split at h
      · simp [*, ih h]
      · exact absurd h (by simp)

theorem isPre_of_append_of_le {p x z : List Char} (h : isPre p (x ++ z) = true)
    (hlen : p.length ≤ x.length) : isPre p x = true := by
  induction p generalizing x with
  | nil => simp [isPre]
  | cons a as ih =>
    cases x with
    | nil => simp at hlen
    | cons b bs =>
      simp only [List.cons_append, isPre] at h ⊢
      split at h
      · simp only [List.length_cons, Nat.add_le_add_iff_right] at hlen
        simpa [*] using ih h hlen
      · exact absurd h (by simp)

theorem mem_of_isPre_append {p x z : List Char} {c : Char}
    (h : isPre p (x ++ c :: z) = true) (hlen : x.length < p.length) : c ∈ p := by
  induction x generalizing p with
  | nil =>
    cases p with
    | nil => simp at hlen
    | cons a as =>
      simp only [List.nil_append, isPre] at h
      split at h
      · subst_vars; exact List.mem_cons_self _ _
      · exact absurd h (by simp)
  | cons b bs ih =>
    cases p with
    | nil => simp at hlen
    | cons a as =>
      simp only [List.cons_append, isPre] at h
      split at h
      · have := ih h (by simpa using Nat.lt_of_succ_lt_succ hlen)
        exact List.mem_cons_of_mem _ this
      · exact absurd h (by simp)

theorem isPre_of_isPre_append_pattern {p q l : List Char}
    (h : isPre (p ++ q) l = true) : isPre p l = true := by
  induction p generalizing l with
  | nil => simp [isPre]
  | cons a as ih =>
    cases l with
    | nil => simp [isPre] at h
    | cons b bs =>
      simp only [List.cons_append, isPre] at h ⊢
      split at h
      · simpa [*] using ih h
      · exact absurd h (by simp)

theorem isPre_refl (l : List Char) : isPre l l = true := by
  induction l with
  | nil => rfl
  | cons a as ih => simp [isPre, ih]

theorem countSub_eq_zero_of_short {p : List Char} :
    ∀ {l : List Char}, l.length < p.length → countSub p l = 0 := by
  intro l
  induction l with
  | nil => intro _; rfl
  | cons c rest ih =>
    intro hlt
    have h1 : isPre p (c :: rest) = false := by
      cases h : isPre p (c :: rest)
      · rfl
      · exact absurd (isPre_length h) (by omega)
    simp [countSub, h1, ih (by simp at hlt ⊢; omega)]

theorem hasSub_eq_false_of_short {p : List Char} :
    ∀ {l : List Char}, l.length < p.length → hasSub p l = false := by
  intro l
  induction l with
  | nil => intro _; rfl
  | cons c rest ih =>
    intro hlt
    have h1 : isPre p (c :: rest) = false := by
      cases h : isPre p (c :: rest)
      · rfl
      · exact absurd (isPre_length h) (by omega)
    simp [hasSub, h1, ih (by simp at hlt ⊢; omega)]

theorem countSub_cons (p : List Char) (c : Char) (rest : List Char) :
    countSub p (c :: rest) = (if isPre p (c :: rest) then 1 else 0) + countSub p rest := rfl

theorem hasSub_cons (p : List Char) (c : Char) (rest : List Char) :
    hasSub p (c :: rest) = (isPre p (c :: rest) || hasSub p rest) := rfl

theorem countSub_self {P : List Char} (hP : P ≠ []) : countSub P P = 1 := by
  obtain ⟨c, rest, rfl⟩ := List.exists_cons_of_ne_nil hP
  rw [countSub_cons, isPre_refl, if_pos rfl,
    countSub_eq_zero_of_short (by simp)]

/-- Occurrence counting at an offset inside a fixed block: if `p` matches
nowhere inside `s` (as a prefix of any suffix of `s`), then the pattern
`p ++ t` cannot occur in `s ++ t` at all. -/
theorem countSub_append_pattern_zero {p : List Char} (t : List Char) (hp : p ≠ []) :
    ∀ {s : List Char}, (∀ i, i < s.length → isPre p (s.drop i) = false) →
      countSub (p ++ t) (s ++ t) = 0 := by
  intro s
  induction s with
  | nil =>
    intro _
    exact countSub_eq_zero_of_short (by cases p <;> simp_all; omega)
  | cons c s' ih =>
    intro hocc
    have hhead : isPre (p ++ t) (c :: (s' ++ t)) = false := by
      cases h : isPre (p ++ t) (c :: (s' ++ t))
      · rfl
      · exfalso
        have hp1 : isPre p (c :: (s' ++ t)) = true := isPre_of_isPre_append_pattern h
        by_cases hlen : p.length ≤ (c :: s').length
        · have hp2 : isPre p ((c :: s') ++ t) = true := by
            rw [List.cons_append]; exact hp1
          have hpre : isPre p (c :: s') = true := isPre_of_append_of_le hp2 hlen
          have h0 := hocc 0 (by simp)
          rw [List.drop_zero] at h0
          rw [h0] at hpre
          exact absurd hpre (by simp)
        · have hlong := isPre_length h
          simp at hlong hlen
          omega
    have htail : countSub (p ++ t) (s' ++ t) = 0 := ih (fun i hi => by
      have := hocc (i + 1) (by simp; omega)
      rwa [List.drop_succ_cons] at this)
    rw [List.cons_append, countSub_cons, hhead, htail]
    rfl

/-- Occurrence counting with an exact tail match: if `p` matches inside
`w ++ p` only before the final `p`, then the pattern `p ++ t` occurs in
`(w ++ p) ++ t` exactly once. -/
theorem countSub_append_pattern_one {p : List Char} (t : List Char) (hp : p ≠ [])
    : ∀ {w : List Char}, (∀ i, i < w.length → isPre p ((w ++ p).drop i) = false) →
      countSub (p ++ t) ((w ++ p) ++ t) = 1 := by
  intro w
  induction w with
  | nil =>
    intro _
    have hne : p ++ t ≠ [] := by cases p <;> simp_all
    simpa using countSub_self hne
  | cons c w' ih =>
    intro hocc
    have hhead : isPre (p ++ t) (c :: ((w' ++ p) ++ t)) = false := by
      cases h : isPre (p ++ t) (c :: ((w' ++ p) ++ t))
      · rfl
      · exfalso
        have hp1 : isPre p (c :: ((w' ++ p) ++ t)) = true := isPre_of_isPre_append_pattern h
        have hlen : p.length ≤ (c :: (w' ++ p)).length := by simp; omega
        have hp2 : isPre p ((c :: (w' ++ p)) ++ t) = true := by
          rw [List.cons_append]; exact hp1
        have hpre : isPre p (c :: (w' ++ p)) = true := isPre_of_append_of_le hp2 hlen
        have h0 := hocc 0 (by simp)
        rw [List.drop_zero, List.cons_append] at h0
        rw [h0] at hpre
        exact absurd hpre (by simp)
    have htail : countSub (p ++ t) ((w' ++ p) ++ t) = 1 := ih (fun i hi => by
      have := hocc (i + 1) (by simp; omega)
      rwa [List.cons_append, List.drop_succ_cons] at this)
    rw [List.cons_append, List.cons_append, countSub_cons, hhead, htail]
    rfl

/-- If `p` never occurs in `l`, neither does any extension `p ++ t`. -/
theorem countSub_append_zero_of_noOcc {p : List Char} (t : List Char) :
    ∀ {l : List Char}, (∀ i, i < l.length → isPre p (l.drop i) = false) →
      countSub (p ++ t) l = 0 := by
  intro l
  induction l with
  | nil => intro _; rfl
  | cons c rest ih =>
    intro hocc
    have hhead : isPre (p ++ t) (c :: rest) = false := by
      cases h : isPre (p ++ t) (c :: rest)
      · rfl
      · have hp1 : isPre p (c :: rest) = true := isPre_of_isPre_append_pattern h
        have h0 := hocc 0 (by simp)
        rw [List.drop_zero] at h0
        rw [h0] at hp1
        exact absurd hp1 (by simp)
    have htail : countSub (p ++ t) rest = 0 := ih (fun i hi => by
      have := hocc (i + 1) (by simp; omega)
      rwa [List.drop_succ_cons] at this)
    rw [countSub_cons, hhead, htail]
    rfl

/-- Splitting at a blocker: if no character of the nonempty block `mid`
occurs in the pattern `p`, occurrences of `p` in `a ++ mid ++ b` are
exactly the occurrences in `a` plus those in `b`. -/
theorem countSub_nil (p : List Char) : countSub p [] = 0 := rfl

theorem countSub_append_mid {p mid : List Char} (hp : p ≠ [])
    (hmid : mid ≠ []) (hdisj : ∀ c, c ∈ mid → c ∉ p) :
    ∀ (a b : List Char), countSub p (a ++ mid ++ b) = countSub p a + countSub p b := by
  have base : ∀ (m b : List Char), m ≠ [] → (∀ c, c ∈ m → c ∉ p) →
      countSub p (m ++ b) = countSub p b := by
    intro m
    induction m with
    | nil => intro b h; exact absurd rfl h
    | cons c m' ih =>
      intro b _ hd
      have hhead : isPre p (c :: (m' ++ b)) = false := by
        cases h : isPre p (c :: (m' ++ b))
        · rfl
        · exfalso
          obtain ⟨q, qs, rfl⟩ := List.exists_cons_of_ne_nil hp
          simp only [isPre] at h
          split at h
          · exact hd c (by simp) (by simp_all)
          · exact absurd h (by simp)
      rcases Decidable.em (m' = []) with hm' | hm'
      · subst hm'
        rw [List.cons_append, countSub_cons, hhead, List.nil_append]
        simp
      · have := ih b hm' (fun c hc => hd c (List.mem_cons_of_mem _ hc))
        rw [List.cons_append, countSub_cons, hhead, this]
        simp
  intro a b
  rw [List.append_assoc]
  induction a with
  | nil =>
    rw [List.nil_append, base mid b hmid hdisj, countSub_nil]
    omega
  | cons c a' ih =>
    have hhead : isPre p (c :: (a' ++ (mid ++ b))) = isPre p (c :: a') := by
      by_cases hlen : p.length ≤ (c :: a').length
      · cases h : isPre p (c :: a')
        · cases h2 : isPre p (c :: (a' ++ (mid ++ b)))
          · rfl
          · exfalso
            have h3 : isPre p ((c :: a') ++ (mid ++ b)) = true := by
              rw [List.cons_append]; exact h2
            rw [isPre_of_append_of_le h3 hlen] at h
            exact absurd h (by simp)
        · have h3 := isPre_append_right (mid ++ b) h
          rw [List.cons_append] at h3
          rw [h3]
      · cases h2 : isPre p (c :: (a' ++ (mid ++ b)))
        · cases h : isPre p (c :: a')
          · rfl
          · exact absurd (isPre_length h) (by omega)
        · exfalso
          obtain ⟨d, mid', rfl⟩ := List.exists_cons_of_ne_nil hmid
          have h3 : isPre p ((c :: a') ++ (d :: (mid' ++ b))) = true := by
            rw [List.cons_append]
            simpa using h2
          have hd : d ∈ p := mem_of_isPre_append h3 (by simp at hlen ⊢; omega)
          exact hdisj d (by simp) hd
    rw [List.cons_append, countSub_cons, countSub_cons, hhead, ih]
    omega

theorem hasSub_iff_countSub {p : List Char} : ∀ l, hasSub p l = true ↔ countSub p l ≠ 0 := by
  intro l
  induction l with
  | nil => simp [hasSub, countSub]
  | cons c rest ih =>
    rw [hasSub_cons, countSub_cons]
    cases h : isPre p (c :: rest) <;> simp [h, ih]

theorem hasSub_false_iff_countSub {p : List Char} (l : List Char) :
    hasSub p l = false ↔ countSub p l = 0 := by
  rw [← Bool.not_eq_true, hasSub_iff_countSub l]
  exact not_not

theorem hasSub_append_mid {p mid : List Char} (hp : p ≠ [])
    (hmid : mid ≠ []) (hdisj : ∀ c, c ∈ mid → c ∉ p) :
    ∀ (a b : List Char), hasSub p (a ++ mid ++ b) = (hasSub p a || hasSub p b) := by
  intro a b
  have hc := countSub_append_mid hp hmid hdisj a b
  cases h1 : hasSub p a <;> cases h2 : hasSub p b
  · have h0 : countSub p (a ++ mid ++ b) = 0 := by
      rw [hc, (hasSub_false_iff_countSub a).mp h1, (hasSub_false_iff_countSub b).mp h2]
    rw [(hasSub_false_iff_countSub _).mpr h0]
    rfl
  · have hb := (hasSub_iff_countSub b).mp h2
    have : countSub p (a ++ mid ++ b) ≠ 0 := by rw [hc]; omega
    rw [(hasSub_iff_countSub _).mpr this]
    rfl
  · have ha := (hasSub_iff_countSub a).mp h1
    have : countSub p (a ++ mid ++ b) ≠ 0 := by rw [hc]; omega
    rw [(hasSub_iff_countSub _).mpr this]
    rfl
  · have ha := (hasSub_iff_countSub a).mp h1
    have : countSub p (a ++ mid ++ b) ≠ 0 := by rw [hc]; omega
    rw [(hasSub_iff_countSub _).mpr this]
    rfl

/-- `hasSub` holds when the pattern is an initial segment. -/
theorem hasSub_of_isPre {p l : List Char} (hl : l ≠ []) (h : isPre p l = true) :
    hasSub p l = true := by
  obtain ⟨c, rest, rfl⟩ := List.exists_cons_of_ne_nil hl
  rw [hasSub_cons, h, Bool.true_or]

/-! ## Newline-separated segment decomposition -/

/-- Join segments with a single newline between consecutive segments. -/
def joinNl : List (List Char) → List Char
  | [] => []
  | [s] => s
  | s :: rest => s ++ '\n' :: joinNl rest

theorem countSub_joinNl {p : List Char} (hp : p ≠ []) (hnl : '\n' ∉ p) :
    ∀ segs : List (List Char), countSub p (joinNl segs) = (segs.map (countSub p)).sum := by
  intro segs
  induction segs with
  | nil => rfl
  | cons s rest ih =>
    cases rest with
    | nil => simp [joinNl]
    | cons s2 rest2 =>
      have : joinNl (s :: s2 :: rest2) = s ++ ['\n'] ++ joinNl (s2 :: rest2) := by
        simp [joinNl]
      rw [this, countSub_append_mid hp (by simp) (by intro c hc; simp at hc; subst hc; exact hnl),
        ih]
      simp

/-! ## Decimal representation facts

`Nat.repr` (via `Nat.toDigits`) produces a nonempty list of decimal digit
characters; digits are unchanged by `Char.toLower` and are disjoint from
letter-only patterns. -/

theorem toDigitsCore_all {P : Char → Prop} (hP : ∀ m, m < 10 → P (Nat.digitChar m)) :
    ∀ (fuel n : Nat) (acc : List Char), (∀ c ∈ acc, P c) →
      ∀ c ∈ Nat.toDigitsCore 10 fuel n acc, P c := by
  intro fuel
  induction fuel with
  | zero =>
    intro n acc hacc c hc
    rw [Nat.toDigitsCore] at hc
    exact hacc c hc
  | succ fuel ih =>
    intro n acc hacc c hc
    rw [Nat.toDigitsCore] at hc
    split at hc
    · rcases List.mem_cons.mp hc with h | h
      · subst h; exact hP _ (Nat.mod_lt _ (by norm_num))
      · exact hacc c h
    · refine ih _ _ ?_ c hc
      intro d hd
      rcases List.mem_cons.mp hd with h | h
      · subst h; exact hP _ (Nat.mod_lt _ (by norm_num))
      · exact hacc d h

theorem toDigitsCore_ne_nil :
    ∀ (fuel n : Nat) (acc : List Char), acc ≠ [] → Nat.toDigitsCore 10 fuel n acc ≠ [] := by
  intro fuel
  induction fuel with
  | zero =>
    intro n acc hacc
    rw [Nat.toDigitsCore]
    exact hacc
  | succ fuel ih =>
    intro n acc hacc
    rw [Nat.toDigitsCore]
    split
    · simp
    · exact ih _ _ (by simp)

theorem natRepr_all {P : Char → Prop} (hP : ∀ m, m < 10 → P (Nat.digitChar m))
    (n : Nat) : ∀ c ∈ (Nat.repr n).data, P c := by
  intro c hc
  have : (Nat.repr n).data = Nat.toDigitsCore 10 (n + 1) n [] := rfl
  rw [this] at hc
  exact toDigitsCore_all hP (n + 1) n [] (by simp) c hc

theorem natRepr_data_ne_nil (n : Nat) : (Nat.repr n).data ≠ [] := by
  have : (Nat.repr n).data = Nat.toDigitsCore 10 (n + 1) n [] := rfl
  rw [this, Nat.toDigitsCore]
  split
  · simp
  · exact toDigitsCore_ne_nil _ _ _ (by simp)

theorem natRepr_isDigit (n : Nat) : ∀ c ∈ (Nat.repr n).data, c.isDigit = true :=
  natRepr_all (by decide) n

theorem natRepr_toLower (n : Nat) : ∀ c ∈ (Nat.repr n).data, c.toLower = c :=
  natRepr_all (by decide) n

theorem map_eq_self_of_all {f : Char → Char} :
    ∀ {l : List Char}, (∀ c ∈ l, f c = c) → l.map f = l := by
  intro l
  induction l with
  | nil => intro _; simp
  | cons c rest ih =>
    intro h
    simp only [List.map_cons, h c (by simp), List.cons.injEq, true_and]
    exact ih (fun d hd => h d (by simp [hd]))

theorem map_toLower_natRepr (n : Nat) :
    (Nat.repr n).data.map Char.toLower = (Nat.repr n).data :=
  map_eq_self_of_all (natRepr_toLower n)

/-! ## Python string primitives

Executable models of the Python `str` operations used by `modal_app.py`.
Strings are UTF-8 in both languages; `Char.isWhitespace` stands for
Python's whitespace class (the source only ever meets ASCII whitespace),
and `Char.toLower` for `str.lower` (the source compares ASCII text). -/

/-- Python `s.split(sep)` for a one-character separator: keeps empty
pieces, and `"".split(sep) == [""]`. -/
def pySplit (sep : Char) : List Char → List (List Char)
  | [] => [[]]
  | c :: rest =>
    let r := pySplit sep rest
    if c = sep then [] :: r
    else (c :: r.headD []) :: r.tail

/-- Python `s.strip()`: remove leading and trailing whitespace. -/
def pyStripChars (l : List Char) : List Char :=
  ((l.dropWhile Char.isWhitespace).reverse.dropWhile Char.isWhitespace).reverse

def pyStrip (s : String) : String := ⟨pyStripChars s.data⟩

/-- Python `s.lower()`. -/
def pyLower (s : String) : String := ⟨s.data.map Char.toLower⟩

/-- Python `needle in haystack` on strings (the needles used by the
source are all nonempty). -/
def strContains (haystack needle : String) : Bool := hasSub needle.data haystack.data

/-- Python `s[:n]`. -/
def pyTake (s : String) (n : Nat) : String := ⟨s.data.take n⟩

theorem pySplit_ne_nil (sep : Char) : ∀ l, pySplit sep l ≠ [] := by
  intro l
  cases l with
  | nil => simp [pySplit]
  | cons c rest =>
    rw [pySplit]
    split <;> simp

/-! ## JSON values and Python errors

`JValue` models the JSON-compatible Python values a request dictionary can
hold. Python floats only ever meet truthiness tests in the source, so a
float is carried as its zero-ness. `PyErr` models a raised exception:
the constructor records the Python exception class. -/

inductive JValue where
  | null : JValue
  | bool (b : Bool) : JValue
  | int (n : Int) : JValue
  | float (isZero : Bool) : JValue
  | str (s : String) : JValue
  | arr (elts : List JValue) : JValue
  | obj (fields : List (String × JValue)) : JValue

inductive PyErr where
  | valueError (msg : String) : PyErr
  | typeError (msg : String) : PyErr
deriving DecidableEq

/-- Python truthiness (`bool(v)`) of a JSON-compatible value. -/
def pyTruthy : JValue → Bool
  | .null => false
  | .bool b => b
  | .int n => n ≠ 0
  | .float isZero => ¬ isZero
  | .str s => s ≠ ""
  | .arr elts => ¬ elts.isEmpty
  | .obj fields => ¬ fields.isEmpty

/-- Python `key in dict`. -/
def dictHas (fields : List (String × JValue)) (key : String) : Bool :=
  fields.any (fun kv => kv.1 = key)

/-- Python `dict[key]` after a successful `in` test (`.null` when the key
is absent, which never happens on the paths that use it). -/
def dictGet (fields : List (String × JValue)) (key : String) : JValue :=
  match fields.lookup key with
  | some v => v
  | none => .null

/-- Python `dict.get(key, default)`. -/
def dictGetD (fields : List (String × JValue)) (key : String) (dflt : JValue) : JValue :=
  match fields.lookup key with
  | some v => v
  | none => dflt

/-- Python `value in set_of_strings`: membership in a `set` hashes the
value first, so an unhashable value (list or dict) raises `TypeError`. -/
def pyMemStrSet (v : JValue) (elems : List String) : Except PyErr Bool :=
  match v with
  | .arr _ => .error (.typeError "unhashable type: 'list'")
  | .obj _ => .error (.typeError "unhashable type: 'dict'")
  | .str x => .ok (elems.contains x)
  | _ => .ok false

/-- Python `isinstance(v, int)` together with the numeric value used by
later comparisons: `bool` is a subclass of `int` (`True == 1`). -/
def pyAsInt : JValue → Option Int
  | .int n => some n
  | .bool b => some (if b then 1 else 0)
  | _ => none

/-- Python `str(v)` for the values that reach f-string interpolation in
the source (strings in practice). -/
def pyStrOf : JValue → String
  | .str s => s
  | .int n => toString n
  | .bool b => if b then "True" else "False"
  | _ => ""

/-! ## The embedded source (`modal_app.py`)

Fixed tables (lines 33-51), validator (54-96), prompt builders (99-190),
text analyzers (193-195, 298-315), API-key check (318-325) and the
handler (343-500). Python set/dict literals become association lists;
the repr order inside the set-valued error messages follows insertion
order (Python set repr order is unspecified and no claim depends on it). -/

def VALID_LENGTHS : List String := ["20s", "30s", "45s", "60s"]

def VALID_TONES : List String :=
  ["neutral", "curious", "dramatic", "serious", "funny", "inspirational"]

def VALID_HOOK_STYLES : List String := ["question", "shock", "bold claim", "story"]

def LENGTH_TO_TOKENS : List (String × Int) :=
  [("20s", 100), ("30s", 150), ("45s", 225), ("60s", 300)]

def LENGTH_TO_WORDS : List (String × String) :=
  [("20s", "30-50"), ("30s", "45-75"), ("45s", "70-110"), ("60s", "90-150")]

/-- Python `LENGTH_TO_TOKENS.get(v)`: `dict.get` hashes its argument, so
unhashable arguments raise; on the only reachable path the argument is a
member of `VALID_LENGTHS`, hence a string. -/
def LENGTH_TO_TOKENS_get (v : JValue) : Except PyErr (Option Int) :=
  match v with
  | .arr _ => .error (.typeError "unhashable type: 'list'")
  | .obj _ => .error (.typeError "unhashable type: 'dict'")
  | .str x => .ok (LENGTH_TO_TOKENS.lookup x)
  | _ => .ok none

def optIntStr : Option Int → String
  | some v => toString v
  | none => "None"

/-- Python `max_tokens != expected_tokens` with `expected_tokens` possibly
`None`. -/
def intNeOpt (m : Int) : Option Int → Bool
  | some v => m ≠ v
  | none => true

/-- `validate_input` (lines 54-96). Returns the `(is_valid, error_message,
error_code)` triple, or the `TypeError` raised by a set-membership test on
an unhashable field value. -/
def validate_input (input_data : JValue) : Except PyErr (Bool × Option String × Option String) :=
  match input_data with
  | .obj kvs =>
    if ¬ dictHas kvs "topic" ∨ ¬ pyTruthy (dictGet kvs "topic") then
      .ok (false, some "Field 'topic' is required and cannot be empty", some "VALIDATION_ERROR")
    else if ¬ dictHas kvs "length" then
      .ok (false, some "Field 'length' is required", some "VALIDATION_ERROR")
    else
      match pyMemStrSet (dictGet kvs "length") VALID_LENGTHS with
      | .error e => .error e
      | .ok lenMem =>
        if ¬ lenMem then
          .ok (false, some "Field 'length' must be one of \x7b'20s', '30s', '45s', '60s'\x7d",
            some "VALIDATION_ERROR")
        else if ¬ dictHas kvs "tone" then
          .ok (false, some "Field 'tone' is required", some "VALIDATION_ERROR")
        else
          match pyMemStrSet (dictGet kvs "tone") VALID_TONES with
          | .error e => .error e
          | .ok toneMem =>
            if ¬ toneMem then
              .ok (false, some "Field 'tone' must be one of \x7b'neutral', 'curious', 'dramatic', 'serious', 'funny', 'inspirational'\x7d",
                some "VALIDATION_ERROR")
            else if ¬ dictHas kvs "hook_style" then
              .ok (false, some "Field 'hook_style' is required", some "VALIDATION_ERROR")
            else
              match pyMemStrSet (dictGet kvs "hook_style") VALID_HOOK_STYLES with
              | .error e => .error e
              | .ok hookMem =>
                if ¬ hookMem then
                  .ok (false, some "Field 'hook_style' must be one of \x7b'question', 'shock', 'bold claim', 'story'\x7d",
                    some "VALIDATION_ERROR")
                else if ¬ dictHas kvs "max_tokens" then
                  .ok (false, some "Field 'max_tokens' is required", some "VALIDATION_ERROR")
                else
                  match pyAsInt (dictGet kvs "max_tokens") with
                  | none =>
                    .ok (false, some "Field 'max_tokens' must be a positive integer",
                      some "VALIDATION_ERROR")
                  | some max_tokens =>
                    if max_tokens ≤ 0 then
                      .ok (false, some "Field 'max_tokens' must be a positive integer",
                        some "VALIDATION_ERROR")
                    else
                      match LENGTH_TO_TOKENS_get (dictGet kvs "length") with
                      | .error e => .error e
                      | .ok expected_tokens =>
                        if intNeOpt max_tokens expected_tokens then
                          .ok (false,
                            some ("Field 'max_tokens' must be " ++ optIntStr expected_tokens ++
                              " for length '" ++ pyStrOf (dictGet kvs "length") ++ "'"),
                            some "VALIDATION_ERROR")
                        else .ok (true, none, none)
  | _ => .ok (false, some "Input must be a dictionary", some "VALIDATION_ERROR")

/-- `build_hook_prompt` (lines 99-108): `hook_instructions.get(hook_style,
hook_instructions["question"])`. The `tone` argument is unused, as in the
source. -/
def build_hook_prompt (topic : String) (hook_style : String) (tone : String) : String :=
  if hook_style = "question" then "Start with a thought-provoking question about " ++ topic
  else if hook_style = "shock" then "Open with a surprising or shocking fact about " ++ topic
  else if hook_style = "bold claim" then "Make a bold, attention-grabbing statement about " ++ topic
  else if hook_style = "story" then
    "Begin with a brief, engaging story or anecdote related to " ++ topic
  else "Start with a thought-provoking question about " ++ topic

/-- `tone_instructions.get(tone, 'neutral')` from `build_main_prompt`
(lines 123-130, 142): note the fallback is the literal string `'neutral'`. -/
def mainToneInstruction (tone : String) : String :=
  if tone = "neutral" then "Use a balanced, informative tone"
  else if tone = "curious" then "Maintain a sense of wonder and curiosity"
  else if tone = "dramatic" then "Use dramatic language and emphasis"
  else if tone = "serious" then "Keep a serious, authoritative tone"
  else if tone = "funny" then "Include humor and light-heartedness"
  else if tone = "inspirational" then "Be uplifting and motivational"
  else "neutral"

/-- `LENGTH_TO_WORDS.get(length, "30-50")` (line 121). -/
def lengthToWordsGet (length : String) : String :=
  if length = "20s" then "30-50"
  else if length = "30s" then "45-75"
  else if length = "45s" then "70-110"
  else if length = "60s" then "90-150"
  else "30-50"

/-- Python `a or b` for an optional string `a` (`None` and `""` are
falsy). -/
def pyOrStr (a : Option String) (b : String) : String :=
  match a with
  | some s => if s = "" then b else s
  | none => b

/-- `build_main_prompt` (lines 111-151). -/
def build_main_prompt (topic length tone hook_style : String) (word_count : Option String)
    (brand_name : String) (include_branding : Bool) : String :=
  let word_range := pyOrStr word_count (lengthToWordsGet length)
  let hook_prompt := build_hook_prompt topic hook_style tone
  let branding_text :=
    if include_branding then
      "\n- Naturally mention '" ++ brand_name ++ "' once in the content if it fits organically"
    else ""
  "Generate a " ++ length ++ " video script about: " ++ topic ++
    "\n\nRequirements:\n- " ++ hook_prompt ++
    "\n- Maintain a " ++ mainToneInstruction tone ++ " tone throughout" ++
    "\n- Target word count: " ++ word_range ++ " words" ++
    "\n- Format: Start with the hook, then continue with the main content" ++
    "\n- Make it engaging, clear, and suitable for video narration" ++
    "\n- Keep sentences concise and punchy\n" ++ branding_text ++
    "\n\nOutput only the script text, starting with the hook line, then the main content."

/-- `tone_instructions.get(tone, 'conversational and clear')` from
`build_voice_script_prompt` (lines 162-169, 181). -/
def voiceToneInstruction (tone : String) : String :=
  if tone = "neutral" then "conversational and clear"
  else if tone = "curious" then "wondering and engaging"
  else if tone = "dramatic" then "dramatic and expressive"
  else if tone = "serious" then "authoritative and clear"
  else if tone = "funny" then "light-hearted and natural"
  else if tone = "inspirational" then "uplifting and warm"
  else "conversational and clear"

/-- `build_voice_script_prompt` (lines 154-190). -/
def build_voice_script_prompt (topic tone : String) (voice_script_style : Option String)
    (brand_name : String) (include_branding : Bool) : String :=
  let style_instruction := pyOrStr voice_script_style "narration"
  let branding_text :=
    if include_branding then
      "\n- Naturally mention '" ++ brand_name ++ "' once if it fits organically"
    else ""
  "Generate a voice narration script about: " ++ topic ++
    "\n\nRequirements:\n- Optimized for voice/narration (more conversational and natural-sounding)" ++
    "\n- Use " ++ voiceToneInstruction tone ++ " tone" ++
    "\n- Style: " ++ style_instruction ++
    "\n- Include natural pauses indicated by punctuation (commas, periods)" ++
    "\n- Can be slightly longer and more detailed than a standard script" ++
    "\n- Make it flow naturally when spoken aloud\n" ++ branding_text ++
    "\n\nOutput only the voice script text."

/-- Python `text.split()`: whitespace-delimited tokens, no empties. -/
def pySplitWsAux (cur : List Char) : List Char → List (List Char)
  | [] => if cur.isEmpty then [] else [cur.reverse]
  | c :: rest =>
    if c.isWhitespace then
      if cur.isEmpty then pySplitWsAux [] rest
      else cur.reverse :: pySplitWsAux [] rest
    else pySplitWsAux (c :: cur) rest

def pySplitWs (l : List Char) : List (List Char) := pySplitWsAux [] l

/-- `count_words` (lines 193-195): `len(text.split())`. -/
def count_words (text : String) : Nat := (pySplitWs text.data).length

/-- `extract_hook` (lines 298-315). -/
def extract_hook (script : String) : String :=
  let lines := pySplit '\n' script.data
  let first_line := pyStripChars (lines.headD [])
  let first_line :=
    if first_line.isEmpty then
      match lines.find? (fun line => !(pyStripChars line).isEmpty) with
      | some line => pyStripChars line
      | none => first_line
    else first_line
  let first_line :=
    if first_line.isEmpty then
      let sentences := pySplit '.' script.data
      pyStripChars (sentences.headD []) ++ ['.']
    else first_line
  if first_line.isEmpty then pyTake script 100 else ⟨first_line⟩

/-- Python `headers.get("x-api-key") or headers.get("X-Api-Key")`
(line 324): `None` and `""` are falsy. -/
def pyOrOpt (a b : Option String) : Option String :=
  match a with
  | some s => if s = "" then b else some s
  | none => b

/-- `validate_api_key` (lines 318-325). `api_key_cfg` is the module-level
`API_KEY`; an unset secret is the empty string (`os.getenv` default). -/
def validate_api_key (api_key_cfg : String) (headers : List (String × String)) : Bool :=
  if api_key_cfg = "" then true
  else
    match pyOrOpt (headers.lookup "x-api-key") (headers.lookup "X-Api-Key") with
    | some v => v = api_key_cfg
    | none => false

/-- The wrapping both generators apply to a raised exception before
re-raising (lines 247-251 and 291-295): a `ValueError` raised inside the
`try` block is also caught here, since `ValueError` is an `Exception`. -/
def wrapGenErr (e : String) : String :=
  if strContains (pyLower e) "rate limit" || strContains e "429" then "Rate limit exceeded"
  else "Model error: " ++ e

/-- `generate_script` (lines 206-251) with the completion call abstracted:
`adapter` is the outcome of `client.chat.completions.create` — the
generated text with `usage.total_tokens`, or the message of the exception
the call raised. The prompt built from the request parametrizes that
call and is not recomputed here. -/
def generate_script (adapter : Except String (String × Nat)) (max_tokens : Int) :
    Except String (String × Nat) :=
  match adapter with
  | .error e => .error (wrapGenErr e)
  | .ok (text, tokens_used) =>
    let script_text := pyStrip text
    if (tokens_used : Int) > max_tokens then
      .error (wrapGenErr ("Generated " ++ Nat.repr tokens_used ++
        " tokens, exceeds limit of " ++ toString max_tokens))
    else .ok (script_text, tokens_used)

/-- The module-level `generate_voice_script` function (lines 254-295),
abstracted like `generate_script`; it has no post-hoc token check. The
handler never actually reaches it: line 420 rebinds the same name to the
request flag, so the call at line 455 goes to that local value instead
(see `generate`). -/
def generate_voice_script (adapter : Except String (String × Nat)) :
    Except String (String × Nat) :=
  match adapter with
  | .error e => .error (wrapGenErr e)
  | .ok (text, tokens_used) => .ok (pyStrip text, tokens_used)

/-- The error-code classification of the handler's final `except` block
(lines 490-495). -/
def classifyErrorCode (error_msg : String) : String :=
  if strContains (pyLower error_msg) "rate limit" || strContains error_msg "429" then "RATE_LIMIT"
  else if strContains (pyLower error_msg) "model" then "MODEL_ERROR"
  else "INTERNAL_ERROR"

/-- The CPython `TypeError` message raised by calling a non-callable
value of the given JSON type, e.g. `'bool' object is not callable`. -/
def pyCallNonCallableMsg : JValue → String
  | .null => "'NoneType' object is not callable"
  | .bool _ => "'bool' object is not callable"
  | .int _ => "'int' object is not callable"
  | .float _ => "'float' object is not callable"
  | .str _ => "'str' object is not callable"
  | .arr _ => "'list' object is not callable"
  | .obj _ => "'dict' object is not callable"

/-- The web handler `generate` (lines 343-500) from the API-key check on.
Transport concerns (body parsing, header lowercasing, request ids,
logging) stay outside the model: `headers` is the headers dictionary the
handler computed, `event_input` is `event.get("input", {})`, and
`adapterMain`/`adapterVoice` are the outcomes the two completion calls
(would) have. The returned association list is the response dictionary.
A `TypeError` escaping `validate_input` reaches the final
`except Exception` handler (it is not a `ValueError`) and is classified
by message substrings; nothing on these paths raises a bare
`ValueError`, since `generate_script` re-wraps its own.

Line 420, `generate_voice_script = input_data.get(...)`, rebinds the
name `generate_voice_script` to the request flag for the whole function
scope, shadowing the module-level function — mirrored below by the local
binding of the same name. The call at line 455 therefore invokes that
stored value and always raises `TypeError: '...' object is not
callable`, which the `except` at line 467 catches and stores as
`voice_script_error`; the voice completion call is never made, so
`adapterVoice` is never consulted and `voice_script` is never added. -/
def generate (api_key_cfg : String) (headers : List (String × String)) (event_input : JValue)
    (adapterMain adapterVoice : Except String (String × Nat)) : List (String × JValue) :=
  if ¬ validate_api_key api_key_cfg headers then
    [("error", .str "Invalid API key"), ("code", .str "AUTH_ERROR")]
  else if ¬ pyTruthy event_input then
    [("error", .str "Missing 'input' field"), ("code", .str "VALIDATION_ERROR")]
  else
    match validate_input event_input with
    | .error (.valueError m) => [("error", .str m), ("code", .str "VALIDATION_ERROR")]
    | .error (.typeError m) => [("error", .str m), ("code", .str (classifyErrorCode m))]
    | .ok (false, error_msg, error_code) =>
      [("error", .str (error_msg.getD "")), ("code", .str (error_code.getD ""))]
    | .ok (true, _, _) =>
      let kvs := match event_input with | .obj kvs => kvs | _ => []
      let length := pyStrOf (dictGet kvs "length")
      let max_tokens := (pyAsInt (dictGet kvs "max_tokens")).getD 0
      let generate_voice_script := dictGetD kvs "generate_voice_script" (.bool false)
      match generate_script adapterMain max_tokens with
      | .error e => [("error", .str e), ("code", .str (classifyErrorCode e))]
      | .ok (script, tokens_used) =>
        let hook := extract_hook script
        let word_count_actual := count_words script
        let output : List (String × JValue) :=
          [("script", .str script), ("hook", .str hook),
           ("word_count", .int (word_count_actual : Int)),
           ("estimated_duration", .str length),
           ("tokens_used", .int (tokens_used : Int))]
        if pyTruthy generate_voice_script then
          output ++ [("voice_script_error", .str (pyCallNonCallableMsg generate_voice_script))]
        else output

/-! ## Word counting (claim C8) -/

/-- Stated from the claim: the number of maximal runs of non-whitespace
characters, counted by a left-to-right scan that remembers whether the
previous character belonged to a run. -/
def runCountAux (prevNonWs : Bool) : List Char → Nat
  | [] => 0
  | c :: rest =>
    if c.isWhitespace then runCountAux false rest
    else (if prevNonWs then 0 else 1) + runCountAux true rest

def runCount (l : List Char) : Nat := runCountAux false l

theorem pySplitWsAux_length (cs : List Char) :
    ∀ cur : List Char, (pySplitWsAux cur cs).length =
      runCountAux (¬ cur.isEmpty) cs + (if cur.isEmpty then 0 else 1) := by
  induction cs with
  | nil =>
    intro cur
    cases cur <;> simp [pySplitWsAux, runCountAux]
  | cons c rest ih =>
    intro cur
    by_cases hw : c.isWhitespace
    · cases cur with
      | nil => simp [pySplitWsAux, runCountAux, hw, ih]
      | cons d ds => simp [pySplitWsAux, runCountAux, hw, ih]
    · cases cur with
      | nil =>
        simp [pySplitWsAux, runCountAux, hw, ih]
        omega
      | cons d ds =>
        simp [pySplitWsAux, runCountAux, hw, ih]

/-- C8: `count_words` counts maximal non-whitespace runs; the two
concrete examples from the spec. -/
theorem C8_count_words :
    (∀ t : String, count_words t = runCount t.data) ∧
      count_words "" = 0 ∧ count_words "a b  c" = 3 := by
  refine ⟨fun t => ?_, by decide, by decide⟩
  have := pySplitWsAux_length t.data []
  simpa [count_words, pySplitWs, runCount] using this

/-! ## Branding and word-count overrides (claims C7, C10) -/

/-- The main-prompt template up to the branding slot (the text before
`{branding_text}` in lines 138-147). -/
def mainPromptCore (topic length tone hook_style : String) (word_count : Option String) : String :=
  "Generate a " ++ length ++ " video script about: " ++ topic ++
    "\n\nRequirements:\n- " ++ build_hook_prompt topic hook_style tone ++
    "\n- Maintain a " ++ mainToneInstruction tone ++ " tone throughout" ++
    "\n- Target word count: " ++ pyOrStr word_count (lengthToWordsGet length) ++ " words" ++
    "\n- Format: Start with the hook, then continue with the main content" ++
    "\n- Make it engaging, clear, and suitable for video narration" ++
    "\n- Keep sentences concise and punchy\n"

/-- The main-prompt template after the branding slot (line 149). -/
def mainPromptTail : String :=
  "\n\nOutput only the script text, starting with the hook line, then the main content."

/-- The voice-prompt template up to the branding slot (lines 177-186). -/
def voicePromptCore (topic tone : String) (voice_script_style : Option String) : String :=
  "Generate a voice narration script about: " ++ topic ++
    "\n\nRequirements:\n- Optimized for voice/narration (more conversational and natural-sounding)" ++
    "\n- Use " ++ voiceToneInstruction tone ++ " tone" ++
    "\n- Style: " ++ pyOrStr voice_script_style "narration" ++
    "\n- Include natural pauses indicated by punctuation (commas, periods)" ++
    "\n- Can be slightly longer and more detailed than a standard script" ++
    "\n- Make it flow naturally when spoken aloud\n"

/-- The voice-prompt template after the branding slot (line 188). -/
def voicePromptTail : String := "\n\nOutput only the voice script text."

theorem str_data_append (a b : String) : (a ++ b).data = a.data ++ b.data := rfl

/-- C7: with `include_branding = false` both prompt builders produce the
bare template — the result does not depend on `brand_name` at all, and
equals core ++ "" ++ tail; with `include_branding = true` exactly the
branding line naming `brand_name` is inserted at that slot. -/
theorem C7_branding_gate :
    ∀ (topic length tone hook_style : String) (word_count voice_script_style : Option String)
      (brand brand2 : String),
      (build_main_prompt topic length tone hook_style word_count brand false =
        build_main_prompt topic length tone hook_style word_count brand2 false) ∧
      (build_main_prompt topic length tone hook_style word_count brand false =
        mainPromptCore topic length tone hook_style word_count ++ "" ++ mainPromptTail) ∧
      (build_main_prompt topic length tone hook_style word_count brand true =
        mainPromptCore topic length tone hook_style word_count ++
          ("\n- Naturally mention '" ++ brand ++ "' once in the content if it fits organically") ++
          mainPromptTail) ∧
      (build_voice_script_prompt topic tone voice_script_style brand false =
        build_voice_script_prompt topic tone voice_script_style brand2 false) ∧
      (build_voice_script_prompt topic tone voice_script_style brand false =
        voicePromptCore topic tone voice_script_style ++ "" ++ voicePromptTail) ∧
      (build_voice_script_prompt topic tone voice_script_style brand true =
        voicePromptCore topic tone voice_script_style ++
          ("\n- Naturally mention '" ++ brand ++ "' once if it fits organically") ++
          voicePromptTail) := by
  intro topic length tone hook_style word_count voice_script_style brand brand2
  refine ⟨rfl, ?_, ?_, rfl, ?_, ?_⟩
  all_goals apply String.ext
  all_goals simp [build_main_prompt, build_voice_script_prompt, mainPromptCore, mainPromptTail,
    voicePromptCore, voicePromptTail, str_data_append, List.append_assoc]

/-- C10: a word-count override supplied as the empty string behaves
exactly as an absent override. -/
theorem C10_empty_word_count :
    ∀ (topic length tone hook_style brand : String) (include_branding : Bool),
      build_main_prompt topic length tone hook_style (some "") brand include_branding =
        build_main_prompt topic length tone hook_style none brand include_branding := by
  intro topic length tone hook_style brand include_branding
  rfl

/-! ## Hook extraction (claim C4) -/

/-- C4 (amended): `extract_hook` returns the stripped first line with a
non-whitespace character; when every line is whitespace-only it returns
the stripped text before the first period with `'.'` appended — a
nonempty string, so the first-100-characters fallback is never reached. -/
theorem C4_extract_hook_spec :
    ∀ s : String,
      (match (pySplit '\n' s.data).find? (fun line => !(pyStripChars line).isEmpty) with
       | some line => extract_hook s = ⟨pyStripChars line⟩
       | none => extract_hook s = ⟨pyStripChars ((pySplit '.' s.data).headD []) ++ ['.']⟩) := by
  intro s
  cases hfind : (pySplit '\n' s.data).find? (fun line => !(pyStripChars line).isEmpty) with
  | some line =>
    have hline : (pyStripChars line).isEmpty = false := by
      have := List.find?_some hfind
      simpa using this
    by_cases h0 : (pyStripChars ((pySplit '\n' s.data).headD [])).isEmpty
    · simp only [extract_hook, h0, if_pos, hfind, hline]
      simp [hline]
    · obtain ⟨l0, rest, hl⟩ :=
        List.exists_cons_of_ne_nil (pySplit_ne_nil '\n' s.data)
      rw [hl] at hfind h0
      simp only [List.headD_cons] at h0
      have hl0 : (pyStripChars l0).isEmpty = false := by
        cases h : (pyStripChars l0).isEmpty
        · rfl
        · exact absurd h h0
      have hfind0 : line = l0 := by
        rw [List.find?_cons_of_pos _ (by simp [hl0])] at hfind
        exact (Option.some.injEq _ _ ▸ hfind).symm
      subst hfind0
      simp only [extract_hook, hl, List.headD_cons, hl0]
      simp [hl0]
  | none =>
    have hall := List.find?_eq_none.mp hfind
    obtain ⟨l0, rest, hl⟩ :=
      List.exists_cons_of_ne_nil (pySplit_ne_nil '\n' s.data)
    have h0 : (pyStripChars l0).isEmpty = true := by
      have := hall l0 (by rw [hl]; simp)
      simpa using this
    simp only [extract_hook, hl, List.headD_cons, h0, hfind]
    rw [hl] at hfind
    simp only [extract_hook, hl, List.headD_cons, h0, if_pos, hfind]
    simp [h0]

/-- C4 counterexample: on the empty string `extract_hook` returns `"."`,
not the empty string claimed. -/
theorem C4_counterexample : extract_hook "" = "." ∧ extract_hook "" ≠ "" := by
  refine ⟨?_, ?_⟩ <;> decide

/-! ## Authentication (claim C5) -/

/-- C5: with a configured shared secret, a headers map carrying no
matching key under either case variant of `x-api-key` makes the handler
return the `AUTH_ERROR` response whatever the adapter outcomes are (the
response does not depend on them, so no adapter call is observable);
with no secret configured the check passes for every headers map. -/
theorem C5_auth :
    (∀ (secret : String) (headers : List (String × String)) (inp : JValue)
       (aM aV : Except String (String × Nat)),
       secret ≠ "" →
       headers.lookup "x-api-key" ≠ some secret →
       headers.lookup "X-Api-Key" ≠ some secret →
       generate secret headers inp aM aV =
         [("error", .str "Invalid API key"), ("code", .str "AUTH_ERROR")]) ∧
    (∀ headers : List (String × String), validate_api_key "" headers = true) := by
  constructor
  · intro secret headers inp aM aV hsec h1 h2
    have hv : validate_api_key secret headers = false := by
      rw [validate_api_key, if_neg hsec]
      cases hx : headers.lookup "x-api-key" with
      | none =>
        simp only [pyOrOpt]
        cases hX : headers.lookup "X-Api-Key" with
        | none => rfl
        | some u =>
          rw [hX] at h2
          simp [show u ≠ secret from fun h => h2 (by rw [h])]
      | some v =>
        simp only [pyOrOpt]
        by_cases hv0 : v = ""
        · rw [if_pos hv0]
          cases hX : headers.lookup "X-Api-Key" with
          | none => rfl
          | some u =>
            rw [hX] at h2
            simp [show u ≠ secret from fun h => h2 (by rw [h])]
        · rw [if_neg hv0]
          rw [hx] at h1
          simp [show v ≠ secret from fun h => h1 (by rw [h])]
    unfold generate
    rw [hv]
    simp
  · intro headers
    rfl

/-- C5 witness at a concrete secret and headers map. -/
theorem C5_witness :
    "shh" ≠ "" ∧
      generate "shh" [("content-type", "application/json")] (.obj [])
        (.ok ("a", 1)) (.error "boom") =
        [("error", .str "Invalid API key"), ("code", .str "AUTH_ERROR")] ∧
      validate_api_key "" [] = true := by
  refine ⟨by decide, ?_, C5_auth.2 []⟩
  exact C5_auth.1 "shh" [("content-type", "application/json")] (.obj [])
    (.ok ("a", 1)) (.error "boom") (by decide) (by decide) (by decide)

/-! ## Validation of well-formed requests (claim C1) -/

/-- A request dictionary with the required fields (plus the optional
voice flag), as the handler receives it in `event["input"]`. -/
def mkRequest (tp L tone hs : String) (m : Int) (gvs : Bool) : JValue :=
  .obj [("topic", .str tp), ("length", .str L), ("tone", .str tone),
    ("hook_style", .str hs), ("max_tokens", .int m),
    ("generate_voice_script", .bool gvs)]

/-- The canonical token budget of a valid length label. -/
def expectedTokensFor (L : String) : Int := (LENGTH_TO_TOKENS.lookup L).getD 0

theorem validate_mkRequest (tp L tone hs : String) (m : Int) (gvs : Bool)
    (htp : tp ≠ "") (hL : L ∈ VALID_LENGTHS) (htone : tone ∈ VALID_TONES)
    (hhs : hs ∈ VALID_HOOK_STYLES) (hm : 0 < m) :
    validate_input (mkRequest tp L tone hs m gvs) =
      (if m = expectedTokensFor L then .ok (true, none, none)
       else .ok (false,
         some ("Field 'max_tokens' must be " ++ toString (expectedTokensFor L) ++
           " for length '" ++ L ++ "'"), some "VALIDATION_ERROR")) := by
  have htone' : VALID_TONES.contains tone = true := List.elem_iff.mpr htone
  have hhs' : VALID_HOOK_STYLES.contains hs = true := List.elem_iff.mpr hhs
  have hm' : ¬ m ≤ 0 := by omega
  fin_cases hL <;>
    by_cases hmv : m = expectedTokensFor "20s" ∨ m = expectedTokensFor "30s" ∨
        m = expectedTokensFor "45s" ∨ m = expectedTokensFor "60s" <;>
  simp_all [validate_input, mkRequest, dictHas, dictGet, pyTruthy, pyMemStrSet,
    pyAsInt, LENGTH_TO_TOKENS_get, intNeOpt, optIntStr, pyStrOf, expectedTokensFor,
    List.lookup, VALID_LENGTHS, VALID_TONES, VALID_HOOK_STYLES]

/-- C1: with every other required field valid and a positive integer
`max_tokens`, validation accepts exactly when `max_tokens` equals the
canonical table value for the length, and any other positive integer is
rejected with `VALIDATION_ERROR` and a message naming the expected
value. -/
theorem C1_validate_max_tokens :
    ∀ (tp L tone hs : String) (m : Int) (gvs : Bool),
      tp ≠ "" → L ∈ VALID_LENGTHS → tone ∈ VALID_TONES → hs ∈ VALID_HOOK_STYLES → 0 < m →
      ((validate_input (mkRequest tp L tone hs m gvs) = .ok (true, none, none) ↔
          m = expectedTokensFor L) ∧
        (m ≠ expectedTokensFor L →
          validate_input (mkRequest tp L tone hs m gvs) =
            .ok (false,
              some ("Field 'max_tokens' must be " ++ toString (expectedTokensFor L) ++
                " for length '" ++ L ++ "'"), some "VALIDATION_ERROR"))) := by
  intro tp L tone hs m gvs htp hL htone hhs hm
  have hv := validate_mkRequest tp L tone hs m gvs htp hL htone hhs hm
  by_cases hme : m = expectedTokensFor L
  · rw [hv, if_pos hme]
    exact ⟨⟨fun _ => hme, fun _ => rfl⟩, fun h => absurd hme h⟩
  · rw [hv, if_neg hme]
    refine ⟨⟨fun h => ?_, fun h => absurd h hme⟩, fun _ => rfl⟩
    simp at h

/-- C1 witness: the accept and reject cases at a concrete request. -/
theorem C1_witness :
    validate_input (mkRequest "cats" "30s" "funny" "question" 150 false) =
        .ok (true, none, none) ∧
      validate_input (mkRequest "cats" "30s" "funny" "question" 100 false) =
        .ok (false, some "Field 'max_tokens' must be 150 for length '30s'",
          some "VALIDATION_ERROR") := by
  constructor
  · exact (C1_validate_max_tokens "cats" "30s" "funny" "question" 150 false
      (by decide) (by decide) (by decide) (by decide) (by decide)).1.mpr (by decide)
  · have := (C1_validate_max_tokens "cats" "30s" "funny" "question" 100 false
      (by decide) (by decide) (by decide) (by decide) (by decide)).2 (by decide)
    simpa using this

/-! ## Totality of validation (claim C9) -/

/-- The value stored under `key` (if any) is hashable, i.e. usable in a
Python set-membership test: any JSON value except a list or dict. -/
def fieldHashable (kvs : List (String × JValue)) (key : String) : Bool :=
  match kvs.lookup key with
  | some (.arr _) => false
  | some (.obj _) => false
  | _ => true

theorem pyMemStrSet_of_hashable {kvs : List (String × JValue)} {key : String}
    (elems : List String) (h : fieldHashable kvs key = true) :
    ∃ b, pyMemStrSet (dictGet kvs key) elems = .ok b := by
  unfold fieldHashable at h
  unfold dictGet
  cases hl : kvs.lookup key with
  | none => exact ⟨false, rfl⟩
  | some v =>
    rw [hl] at h
    cases v with
    | arr elts => simp at h
    | obj fields => simp at h
    | str s => exact ⟨elems.contains s, rfl⟩
    | null => exact ⟨false, rfl⟩
    | bool b => exact ⟨false, rfl⟩
    | int n => exact ⟨false, rfl⟩
    | float z => exact ⟨false, rfl⟩

theorem lttGet_of_hashable {kvs : List (String × JValue)}
    (h : fieldHashable kvs "length" = true) :
    ∃ o, LENGTH_TO_TOKENS_get (dictGet kvs "length") = .ok o := by
  unfold fieldHashable at h
  unfold dictGet
  cases hl : kvs.lookup "length" with
  | none => exact ⟨none, rfl⟩
  | some v =>
    rw [hl] at h
    cases v with
    | arr elts => simp at h
    | obj fields => simp at h
    | str s => exact ⟨LENGTH_TO_TOKENS.lookup s, rfl⟩
    | null => exact ⟨none, rfl⟩
    | bool b => exact ⟨none, rfl⟩
    | int n => exact ⟨none, rfl⟩
    | float z => exact ⟨none, rfl⟩

/-- C9 (amended): on every dictionary whose `length`, `tone` and
`hook_style` values (where present) are hashable, `validate_input`
returns a triple and raises nothing; with an unhashable value in one of
those three fields the set-membership test raises `TypeError` (see the
counterexample). Wrong types elsewhere — e.g. `max_tokens` a string or
`topic` a list — never raise. -/
theorem C9_total_on_hashable :
    ∀ kvs : List (String × JValue),
      fieldHashable kvs "length" = true → fieldHashable kvs "tone" = true →
      fieldHashable kvs "hook_style" = true →
      (validate_input (.obj kvs)).isOk = true := by
  intro kvs h1 h2 h3
  obtain ⟨b1, hb1⟩ := pyMemStrSet_of_hashable VALID_LENGTHS h1
  obtain ⟨b2, hb2⟩ := pyMemStrSet_of_hashable VALID_TONES h2
  obtain ⟨b3, hb3⟩ := pyMemStrSet_of_hashable VALID_HOOK_STYLES h3
  obtain ⟨o, ho⟩ := lttGet_of_hashable h1
  simp only [validate_input, hb1, hb2, hb3, ho]
  repeat' split
  all_goals rfl

/-- C9 counterexample: a list-valued `length` makes `validate_input`
raise `TypeError` from the set-membership test, so it is not total on
all JSON dictionaries. -/
theorem C9_counterexample :
    validate_input (.obj [("topic", .str "x"), ("length", .arr [])]) =
      .error (.typeError "unhashable type: 'list'") := rfl

/-- C9 witness: concrete hashable-field request, including a wrong-typed
`max_tokens`. -/
theorem C9_witness :
    fieldHashable [("topic", .str "cats"), ("max_tokens", .str "many")] "length" = true ∧
      (validate_input (.obj [("topic", .str "cats"), ("max_tokens", .str "many")])).isOk =
        true :=
  ⟨rfl, C9_total_on_hashable [("topic", .str "cats"), ("max_tokens", .str "many")] rfl rfl rfl⟩

/-! ## Token-overrun handling (claim C2) -/

/-- A digit-free pattern cannot straddle the decimal digits of `n`
embedded between two blocks, even after lowercasing. -/
theorem hasSub_toLower_around_digits (pat : List Char) (hpat : pat ≠ [])
    (hnd : ∀ c ∈ pat, c.isDigit = false) (pre post : List Char) (n : Nat)
    (hpre : hasSub pat (pre.map Char.toLower) = false)
    (hpost : hasSub pat (post.map Char.toLower) = false) :
    hasSub pat ((pre ++ (Nat.repr n).data ++ post).map Char.toLower) = false := by
  rw [List.map_append, List.map_append, map_toLower_natRepr]
  rw [hasSub_append_mid hpat (natRepr_data_ne_nil n) (fun c hc hcp => by
    have h1 := natRepr_isDigit n c hc
    have h2 := hnd c hcp
    rw [h1] at h2
    exact absurd h2 (by simp))]
  rw [hpre, hpost]
  rfl

/-- Prefixing a message with `"Model error: "` cannot introduce an
occurrence of `"429"`. -/
theorem no_429_wrapped (msg : String) (h : strContains msg "429" = false) :
    strContains ("Model error: " ++ msg) "429" = false := by
  unfold strContains at *
  have hsplit := @hasSub_append_mid "429".data "Model error: ".data
    (by decide) (by decide)
    (fun c hc hcp => by
      have : ∀ c ∈ "Model error: ".data, c ∉ "429".data := by decide
      exact this c hc hcp) [] msg.data
  rw [List.nil_append] at hsplit
  rw [str_data_append, hsplit, h]
  rfl

/-- The lowercased wrap always contains `"model"`. -/
theorem model_in_wrapped (msg : String) :
    strContains (pyLower ("Model error: " ++ msg)) "model" = true := by
  unfold strContains pyLower
  have hmap : ("Model error: " ++ msg).data.map Char.toLower =
      "model error: ".data ++ msg.data.map Char.toLower := by
    rw [str_data_append, List.map_append]
    congr 1
  rw [hmap]
  apply hasSub_of_isPre (by simp)
  exact isPre_append_right _ (by decide)

/-- The handler's behaviour when the main completion reports more tokens
than the requested budget: the `ValueError` is wrapped into a
`"Model error: ..."` exception inside `generate_script`, so the handler
classifies it as `MODEL_ERROR` (given the message does not contain the
rate-limit markers) and answers with the bare two-field error object. -/
theorem generate_overrun (tp L tone hs : String) (limit : Int) (gvs : Bool)
    (text : String) (tokens : Nat) (aV : Except String (String × Nat))
    (hval : validate_input (mkRequest tp L tone hs limit gvs) = .ok (true, none, none))
    (htok : limit < (tokens : Int))
    (h1 : strContains (pyLower ("Generated " ++ Nat.repr tokens ++
      " tokens, exceeds limit of " ++ toString limit)) "rate limit" = false)
    (h2 : strContains ("Generated " ++ Nat.repr tokens ++
      " tokens, exceeds limit of " ++ toString limit) "429" = false)
    (h3 : strContains (pyLower ("Model error: " ++ ("Generated " ++ Nat.repr tokens ++
      " tokens, exceeds limit of " ++ toString limit))) "rate limit" = false) :
    generate "" [] (mkRequest tp L tone hs limit gvs) (.ok (text, tokens)) aV =
      [("error", .str ("Model error: " ++ ("Generated " ++ Nat.repr tokens ++
          " tokens, exceeds limit of " ++ toString limit))),
       ("code", .str "MODEL_ERROR")] := by
  have hmsg : wrapGenErr ("Generated " ++ Nat.repr tokens ++
      " tokens, exceeds limit of " ++ toString limit) =
      "Model error: " ++ ("Generated " ++ Nat.repr tokens ++
        " tokens, exceeds limit of " ++ toString limit) := by
    rw [wrapGenErr, h1, h2]
    rfl
  have hclass : classifyErrorCode ("Model error: " ++ ("Generated " ++ Nat.repr tokens ++
      " tokens, exceeds limit of " ++ toString limit)) = "MODEL_ERROR" := by
    rw [classifyErrorCode, h3, no_429_wrapped _ h2, model_in_wrapped]
    rfl
  have hgs : generate_script (.ok (text, tokens)) limit =
      .error ("Model error: " ++ ("Generated " ++ Nat.repr tokens ++
        " tokens, exceeds limit of " ++ toString limit)) := by
    rw [generate_script, if_pos (by omega), hmsg]
  unfold generate
  simp only [mkRequest] at hval ⊢
  simp [hval, hgs, hclass, dictGet, pyAsInt, pyTruthy, validate_api_key,
    List.lookup]

/-- C2 (amended): when the main completion's token usage exceeds the
requested budget on an otherwise valid request, the whole request fails
with the two-field error response — no partial result — but the code is
`MODEL_ERROR`, not `VALIDATION_ERROR`: the `ValueError` is re-wrapped as
a generic `"Model error: ..."` exception before the handler classifies
it. (`RATE_LIMIT` would be produced instead only when the token numbers
happen to contain the digits `429`, which the last hypothesis
excludes.) -/
theorem C2_token_overrun_model_error :
    ∀ (tp L tone hs : String) (gvs : Bool) (text : String) (tokens : Nat)
      (aV : Except String (String × Nat)),
      tp ≠ "" → L ∈ VALID_LENGTHS → tone ∈ VALID_TONES → hs ∈ VALID_HOOK_STYLES →
      expectedTokensFor L < (tokens : Int) →
      strContains ("Generated " ++ Nat.repr tokens ++ " tokens, exceeds limit of " ++
        toString (expectedTokensFor L)) "429" = false →
      generate "" [] (mkRequest tp L tone hs (expectedTokensFor L) gvs)
          (.ok (text, tokens)) aV =
        [("error", .str ("Model error: " ++ ("Generated " ++ Nat.repr tokens ++
            " tokens, exceeds limit of " ++ toString (expectedTokensFor L)))),
         ("code", .str "MODEL_ERROR")] := by
  intro tp L tone hs gvs text tokens aV htp hL htone hhs htok h429
  have hpos : (0 : Int) < expectedTokensFor L := by fin_cases hL <;> decide
  have hval : validate_input (mkRequest tp L tone hs (expectedTokensFor L) gvs) =
      .ok (true, none, none) := by
    rw [validate_mkRequest tp L tone hs _ gvs htp hL htone hhs hpos, if_pos rfl]
  refine generate_overrun tp L tone hs _ gvs text tokens aV hval htok ?_ h429 ?_
  · show hasSub "rate limit".data
      (("Generated " ++ Nat.repr tokens ++ " tokens, exceeds limit of " ++
        toString (expectedTokensFor L)).data.map Char.toLower) = false
    have hdata : ("Generated " ++ Nat.repr tokens ++ " tokens, exceeds limit of " ++
        toString (expectedTokensFor L)).data =
        "Generated ".data ++ (Nat.repr tokens).data ++
          (" tokens, exceeds limit of " ++ toString (expectedTokensFor L)).data := by
      simp [str_data_append, List.append_assoc]
    rw [hdata]
    refine hasSub_toLower_around_digits _ (by decide) (by decide) _ _ tokens (by decide) ?_
    fin_cases hL <;> decide
  · show hasSub "rate limit".data
      (("Model error: " ++ ("Generated " ++ Nat.repr tokens ++
        " tokens, exceeds limit of " ++
        toString (expectedTokensFor L))).data.map Char.toLower) = false
    have hdata : ("Model error: " ++ ("Generated " ++ Nat.repr tokens ++
        " tokens, exceeds limit of " ++ toString (expectedTokensFor L))).data =
        ("Model error: " ++ "Generated ").data ++ (Nat.repr tokens).data ++
          (" tokens, exceeds limit of " ++ toString (expectedTokensFor L)).data := by
      simp [str_data_append, List.append_assoc]
    rw [hdata]
    refine hasSub_toLower_around_digits _ (by decide) (by decide) _ _ tokens (by decide) ?_
    fin_cases hL <;> decide

/-- C2 counterexample: at a concrete valid request with an overrunning
main call, the handler's code is `MODEL_ERROR`, not the claimed
`VALIDATION_ERROR`. -/
theorem C2_counterexample :
    generate "" [] (mkRequest "cats" "30s" "funny" "question" 150 false)
        (.ok ("hi", 200)) (.ok ("v", 10)) =
      [("error", .str "Model error: Generated 200 tokens, exceeds limit of 150"),
       ("code", .str "MODEL_ERROR")] ∧
      ("MODEL_ERROR" : String) ≠ "VALIDATION_ERROR" := by
  exact ⟨rfl, by decide⟩

/-- C2 witness at a concrete overrunning request. -/
theorem C2_witness :
    expectedTokensFor "30s" < ((200 : Nat) : Int) ∧
      generate "" [] (mkRequest "cats" "30s" "funny" "question" (expectedTokensFor "30s") false)
          (.ok ("hi", 200)) (.error "x") =
        [("error", .str ("Model error: " ++ ("Generated " ++ Nat.repr 200 ++
            " tokens, exceeds limit of " ++ toString (expectedTokensFor "30s")))),
         ("code", .str "MODEL_ERROR")] :=
  ⟨by decide,
    C2_token_overrun_model_error "cats" "30s" "funny" "question" false "hi" 200 (.error "x")
      (by decide) (by decide) (by decide) (by decide) (by decide) (by decide)⟩

/-! ## Voice-script handling (claim C3) -/

/-- C3 (the code is the bug): line 420 rebinds `generate_voice_script`
to the request flag, shadowing the module-level function, so on a valid
request with the flag true the call at line 455 invokes a bool and
always raises `TypeError: 'bool' object is not callable`. The `except`
at line 467 catches it, so the success response (with `script`, `hook`,
`word_count`, no `error`/`code`) is still returned and `voice_script` is
never present — but `voice_script_error` always carries the `TypeError`
message, never a voice-completion failure message, and the response is
the same for every voice-adapter outcome `aV`/`aV2` (the voice
completion is never invoked), contrary to the claim and to the spec's
intent. -/
theorem C3_voice_shadowing_bug :
    ∀ (tp L tone hs : String) (text : String) (tokens : Nat)
      (aV aV2 : Except String (String × Nat)),
      tp ≠ "" → L ∈ VALID_LENGTHS → tone ∈ VALID_TONES → hs ∈ VALID_HOOK_STYLES →
      (tokens : Int) ≤ expectedTokensFor L →
      (generate "" [] (mkRequest tp L tone hs (expectedTokensFor L) true)
          (.ok (text, tokens)) aV).lookup "script" =
          some (.str (pyStrip text)) ∧
      (generate "" [] (mkRequest tp L tone hs (expectedTokensFor L) true)
          (.ok (text, tokens)) aV).lookup "hook" =
          some (.str (extract_hook (pyStrip text))) ∧
      (generate "" [] (mkRequest tp L tone hs (expectedTokensFor L) true)
          (.ok (text, tokens)) aV).lookup "word_count" =
          some (.int (count_words (pyStrip text))) ∧
      (generate "" [] (mkRequest tp L tone hs (expectedTokensFor L) true)
          (.ok (text, tokens)) aV).lookup "voice_script_error" =
          some (.str "'bool' object is not callable") ∧
      (generate "" [] (mkRequest tp L tone hs (expectedTokensFor L) true)
          (.ok (text, tokens)) aV).lookup "voice_script" = none ∧
      (generate "" [] (mkRequest tp L tone hs (expectedTokensFor L) true)
          (.ok (text, tokens)) aV).lookup "error" = none ∧
      (generate "" [] (mkRequest tp L tone hs (expectedTokensFor L) true)
          (.ok (text, tokens)) aV).lookup "code" = none ∧
      generate "" [] (mkRequest tp L tone hs (expectedTokensFor L) true)
          (.ok (text, tokens)) aV =
        generate "" [] (mkRequest tp L tone hs (expectedTokensFor L) true)
          (.ok (text, tokens)) aV2 := by
  intro tp L tone hs text tokens aV aV2 htp hL htone hhs htok
  have hpos : (0 : Int) < expectedTokensFor L := by fin_cases hL <;> decide
  have hval : validate_input (mkRequest tp L tone hs (expectedTokensFor L) true) =
      .ok (true, none, none) := by
    rw [validate_mkRequest tp L tone hs _ true htp hL htone hhs hpos, if_pos rfl]
  have hgs : generate_script (.ok (text, tokens)) (expectedTokensFor L) =
      .ok (pyStrip text, tokens) := by
    simp only [generate_script]
    rw [if_neg (by omega)]
  have hresp : generate "" [] (mkRequest tp L tone hs (expectedTokensFor L) true)
      (.ok (text, tokens)) aV =
      [("script", .str (pyStrip text)), ("hook", .str (extract_hook (pyStrip text))),
       ("word_count", .int (count_words (pyStrip text))),
       ("estimated_duration", .str L), ("tokens_used", .int (tokens : Int)),
       ("voice_script_error", .str "'bool' object is not callable")] := by
    unfold generate
    simp only [mkRequest] at hval ⊢
    simp [hval, hgs, dictGet, dictGetD, pyAsInt, pyTruthy, pyStrOf,
      pyCallNonCallableMsg, validate_api_key, List.lookup]
  have hindep : generate "" [] (mkRequest tp L tone hs (expectedTokensFor L) true)
      (.ok (text, tokens)) aV =
      generate "" [] (mkRequest tp L tone hs (expectedTokensFor L) true)
        (.ok (text, tokens)) aV2 := rfl
  rw [hresp] at hindep ⊢
  refine ⟨rfl, ?_, ?_, ?_, ?_, ?_, ?_, hindep⟩ <;> simp [List.lookup]

/-- C3 witness: even with a voice adapter outcome that would succeed,
the response carries the `TypeError` message and no `voice_script`. -/
theorem C3_witness :
    ((100 : Nat) : Int) ≤ expectedTokensFor "30s" ∧
      (generate "" [] (mkRequest "cats" "30s" "funny" "question" (expectedTokensFor "30s") true)
          (.ok ("Hello world", 100)) (.ok ("voice text", 50))).lookup "voice_script_error" =
        some (.str "'bool' object is not callable") ∧
      (generate "" [] (mkRequest "cats" "30s" "funny" "question" (expectedTokensFor "30s") true)
          (.ok ("Hello world", 100)) (.ok ("voice text", 50))).lookup "voice_script" = none :=
  ⟨by decide,
    (C3_voice_shadowing_bug "cats" "30s" "funny" "question" "Hello world" 100
      (.ok ("voice text", 50)) (.error "boom")
      (by decide) (by decide) (by decide) (by decide) (by decide)).2.2.2.1,
    (C3_voice_shadowing_bug "cats" "30s" "funny" "question" "Hello world" 100
      (.ok ("voice text", 50)) (.error "boom")
      (by decide) (by decide) (by decide) (by decide) (by decide)).2.2.2.2.1⟩

/-! ## Hook-fragment occurrence in the main prompt (claim C6) -/

/-- The topic-independent part of each hook instruction (lines 101-106),
with the `"question"` fallback of line 108. -/
def hookPreOf (hook_style : String) : List Char :=
  if hook_style = "question" then "Start with a thought-provoking question about ".data
  else if hook_style = "shock" then "Open with a surprising or shocking fact about ".data
  else if hook_style = "bold claim" then "Make a bold, attention-grabbing statement about ".data
  else if hook_style = "story" then
    "Begin with a brief, engaging story or anecdote related to ".data
  else "Start with a thought-provoking question about ".data

theorem build_hook_prompt_data (t hs tone : String) :
    (build_hook_prompt t hs tone).data = hookPreOf hs ++ t.data := by
  unfold build_hook_prompt hookPreOf
  split_ifs <;> rfl

theorem split_req : "\n\nRequirements:\n- ".data =
    '\n' :: '\n' :: ("Requirements:".data ++ '\n' :: "- ".data) := rfl

theorem split_maintain : "\n- Maintain a ".data = '\n' :: "- Maintain a ".data := rfl

theorem split_target : "\n- Target word count: ".data =
    '\n' :: "- Target word count: ".data := rfl

theorem split_format :
    "\n- Format: Start with the hook, then continue with the main content".data =
      '\n' :: "- Format: Start with the hook, then continue with the main content".data := rfl

theorem split_make :
    "\n- Make it engaging, clear, and suitable for video narration".data =
      '\n' :: "- Make it engaging, clear, and suitable for video narration".data := rfl

theorem split_keep : "\n- Keep sentences concise and punchy\n".data =
    '\n' :: ("- Keep sentences concise and punchy".data ++ ['\n']) := rfl

theorem split_brand : "\n- Naturally mention '".data =
    '\n' :: "- Naturally mention '".data := rfl

theorem split_output :
    "\n\nOutput only the script text, starting with the hook line, then the main content.".data =
      '\n' :: '\n' ::
        "Output only the script text, starting with the hook line, then the main content.".data :=
  rfl

/-- The default main prompt (no word-count override, default branding)
split at its newlines. -/
theorem mainPrompt_decomp (t len tone hs : String) :
    (build_main_prompt t len tone hs none "Autopostai.Video" true).data =
      joinNl
        ["Generate a ".data ++ len.data ++ " video script about: ".data ++ t.data,
         [],
         "Requirements:".data,
         "- ".data ++ (build_hook_prompt t hs tone).data,
         "- Maintain a ".data ++ (mainToneInstruction tone).data ++ " tone throughout".data,
         "- Target word count: ".data ++ (lengthToWordsGet len).data ++ " words".data,
         "- Format: Start with the hook, then continue with the main content".data,
         "- Make it engaging, clear, and suitable for video narration".data,
         "- Keep sentences concise and punchy".data,
         [],
         "- Naturally mention '".data ++ "Autopostai.Video".data ++
           "' once in the content if it fits organically".data,
         [],
         "Output only the script text, starting with the hook line, then the main content.".data] := by
  simp only [build_main_prompt, pyOrStr, if_true, joinNl, str_data_append,
    split_req, split_maintain, split_target, split_format, split_make, split_keep,
    split_brand, split_output, List.append_assoc, List.cons_append, List.nil_append]

/-- No suffix of `l` starts with `p`. -/
def noOcc (p l : List Char) : Prop := ∀ i, i < l.length → isPre p (l.drop i) = false

instance noOccDecidable (p l : List Char) : Decidable (noOcc p l) :=
  inferInstanceAs (Decidable (∀ i, i < l.length → isPre p (l.drop i) = false))

theorem c6_count_one (t len tone hs : String) (htop : '\n' ∉ t.data)
    (pc : List Char) (hpc : (build_hook_prompt t hs tone).data = pc ++ t.data)
    (hpcne : pc ≠ []) (hpcnl : '\n' ∉ pc)
    (h1 : noOcc pc ("Generate a ".data ++ len.data ++ " video script about: ".data))
    (h3 : noOcc pc "Requirements:".data)
    (h4 : ∀ i, i < ("- ".data : List Char).length →
      isPre pc (("- ".data ++ pc).drop i) = false)
    (h5 : noOcc pc ("- Maintain a ".data ++ (mainToneInstruction tone).data ++
      " tone throughout".data))
    (h6 : noOcc pc ("- Target word count: ".data ++ (lengthToWordsGet len).data ++
      " words".data))
    (h7 : noOcc pc "- Format: Start with the hook, then continue with the main content".data)
    (h8 : noOcc pc "- Make it engaging, clear, and suitable for video narration".data)
    (h9 : noOcc pc "- Keep sentences concise and punchy".data)
    (h11 : noOcc pc ("- Naturally mention '".data ++ "Autopostai.Video".data ++
      "' once in the content if it fits organically".data))
    (h13 : noOcc pc
      "Output only the script text, starting with the hook line, then the main content.".data) :
    countSub (build_hook_prompt t hs tone).data
      (build_main_prompt t len tone hs none "Autopostai.Video" true).data = 1 := by
  have hne : pc ++ t.data ≠ [] := by cases pc <;> simp_all
  have hnl : '\n' ∉ pc ++ t.data := by
    intro h
    rcases List.mem_append.mp h with h | h
    · exact hpcnl h
    · exact htop h
  rw [hpc, mainPrompt_decomp, hpc, countSub_joinNl hne hnl]
  have e1 : countSub (pc ++ t.data)
      ("Generate a ".data ++ len.data ++ " video script about: ".data ++ t.data) = 0 :=
    countSub_append_pattern_zero t.data hpcne h1
  have e4 : countSub (pc ++ t.data) ("- ".data ++ (pc ++ t.data)) = 1 := by
    rw [← List.append_assoc]
    exact countSub_append_pattern_one t.data hpcne h4
  have e3 := @countSub_append_zero_of_noOcc pc t.data _ h3
  have e5 := @countSub_append_zero_of_noOcc pc t.data _ h5
  have e6 := @countSub_append_zero_of_noOcc pc t.data _ h6
  have e7 := @countSub_append_zero_of_noOcc pc t.data _ h7
  have e8 := @countSub_append_zero_of_noOcc pc t.data _ h8
  have e9 := @countSub_append_zero_of_noOcc pc t.data _ h9
  have e11 := @countSub_append_zero_of_noOcc pc t.data _ h11
  have e13 := @countSub_append_zero_of_noOcc pc t.data _ h13
  simp only [List.map_cons, List.map_nil, List.sum_cons, List.sum_nil,
    e1, e3, e4, e5, e6, e7, e8, e9, e11, e13, countSub_nil]
  omega

theorem c6_count_zero (t len tone hs hs' : String) (htop : '\n' ∉ t.data)
    (p pc : List Char)
    (hpc : (build_hook_prompt t hs tone).data = pc ++ t.data)
    (hp : (build_hook_prompt t hs' tone).data = p ++ t.data)
    (hpne : p ≠ []) (hpnl : '\n' ∉ p)
    (h1 : noOcc p ("Generate a ".data ++ len.data ++ " video script about: ".data))
    (h3 : noOcc p "Requirements:".data)
    (h4 : noOcc p ("- ".data ++ pc))
    (h5 : noOcc p ("- Maintain a ".data ++ (mainToneInstruction tone).data ++
      " tone throughout".data))
    (h6 : noOcc p ("- Target word count: ".data ++ (lengthToWordsGet len).data ++
      " words".data))
    (h7 : noOcc p "- Format: Start with the hook, then continue with the main content".data)
    (h8 : noOcc p "- Make it engaging, clear, and suitable for video narration".data)
    (h9 : noOcc p "- Keep sentences concise and punchy".data)
    (h11 : noOcc p ("- Naturally mention '".data ++ "Autopostai.Video".data ++
      "' once in the content if it fits organically".data))
    (h13 : noOcc p
      "Output only the script text, starting with the hook line, then the main content.".data) :
    countSub (build_hook_prompt t hs' tone).data
      (build_main_prompt t len tone hs none "Autopostai.Video" true).data = 0 := by
  have hne : p ++ t.data ≠ [] := by cases p <;> simp_all
  have hnl : '\n' ∉ p ++ t.data := by
    intro h
    rcases List.mem_append.mp h with h | h
    · exact hpnl h
    · exact htop h
  rw [hp, mainPrompt_decomp, hpc, countSub_joinNl hne hnl]
  have e1 : countSub (p ++ t.data)
      ("Generate a ".data ++ len.data ++ " video script about: ".data ++ t.data) = 0 :=
    countSub_append_pattern_zero t.data hpne h1
  have e4 : countSub (p ++ t.data) ("- ".data ++ (pc ++ t.data)) = 0 := by
    rw [← List.append_assoc]
    exact countSub_append_pattern_zero t.data hpne h4
  have e3 := @countSub_append_zero_of_noOcc p t.data _ h3
  have e5 := @countSub_append_zero_of_noOcc p t.data _ h5
  have e6 := @countSub_append_zero_of_noOcc p t.data _ h6
  have e7 := @countSub_append_zero_of_noOcc p t.data _ h7
  have e8 := @countSub_append_zero_of_noOcc p t.data _ h8
  have e9 := @countSub_append_zero_of_noOcc p t.data _ h9
  have e11 := @countSub_append_zero_of_noOcc p t.data _ h11
  have e13 := @countSub_append_zero_of_noOcc p t.data _ h13
  simp only [List.map_cons, List.map_nil, List.sum_cons, List.sum_nil,
    e1, e3, e4, e5, e6, e7, e8, e9, e11, e13, countSub_nil]
  omega

theorem sideFixed : ∀ hs ∈ VALID_HOOK_STYLES,
    noOcc (hookPreOf hs) "Requirements:".data ∧
    noOcc (hookPreOf hs) "- Format: Start with the hook, then continue with the main content".data ∧
    noOcc (hookPreOf hs) "- Make it engaging, clear, and suitable for video narration".data ∧
    noOcc (hookPreOf hs) "- Keep sentences concise and punchy".data ∧
    noOcc (hookPreOf hs) ("- Naturally mention '".data ++ "Autopostai.Video".data ++
      "' once in the content if it fits organically".data) ∧
    noOcc (hookPreOf hs)
      "Output only the script text, starting with the hook line, then the main content.".data := by
  decide

theorem sideSeg1 : ∀ hs ∈ VALID_HOOK_STYLES, ∀ len ∈ VALID_LENGTHS,
    noOcc (hookPreOf hs) ("Generate a ".data ++ len.data ++ " video script about: ".data) := by
  decide

theorem sideSeg5 : ∀ hs ∈ VALID_HOOK_STYLES, ∀ tone ∈ VALID_TONES,
    noOcc (hookPreOf hs) ("- Maintain a ".data ++ (mainToneInstruction tone).data ++
      " tone throughout".data) := by
  decide

theorem sideSeg6 : ∀ hs ∈ VALID_HOOK_STYLES, ∀ len ∈ VALID_LENGTHS,
    noOcc (hookPreOf hs) ("- Target word count: ".data ++ (lengthToWordsGet len).data ++
      " words".data) := by
  decide

theorem sideSeg4same : ∀ hs ∈ VALID_HOOK_STYLES, ∀ i,
    i < ("- ".data : List Char).length →
    isPre (hookPreOf hs) (("- ".data ++ hookPreOf hs).drop i) = false := by
  decide

theorem sideSeg4diff : ∀ hs ∈ VALID_HOOK_STYLES, ∀ hs2 ∈ VALID_HOOK_STYLES,
    hookPreOf hs ≠ hookPreOf hs2 →
    noOcc (hookPreOf hs) ("- ".data ++ hookPreOf hs2) := by
  decide

/-- C6 (amended): for each of the four hook styles, every valid length
and tone, and every topic containing no newline character, the default
main prompt contains that style's instruction fragment (the hook
instruction built for the topic) exactly once and none of the other
three styles' fragments. Topics containing newlines can duplicate the
chosen fragment (see the counterexample), which is what restricts the
claim to newline-free topics. -/
theorem C6_hook_fragment_occurrence :
    ∀ hs ∈ VALID_HOOK_STYLES, ∀ len ∈ VALID_LENGTHS, ∀ tone ∈ VALID_TONES,
      ∀ t : String, '\n' ∉ t.data →
      countSub (build_hook_prompt t hs tone).data
          (build_main_prompt t len tone hs none "Autopostai.Video" true).data = 1 ∧
        ∀ hs' ∈ VALID_HOOK_STYLES, hs' ≠ hs →
          countSub (build_hook_prompt t hs' tone).data
              (build_main_prompt t len tone hs none "Autopostai.Video" true).data = 0 := by
  intro hs hhs len hlen tone htone t htop
  fin_cases hhs <;> fin_cases hlen <;> fin_cases htone <;>
    (refine ⟨c6_count_one t _ _ _ htop (hookPreOf _) (build_hook_prompt_data t _ _)
        (by decide) (by decide)
        (sideSeg1 _ (by decide) _ (by decide)) (sideFixed _ (by decide)).1
        (sideSeg4same _ (by decide)) (sideSeg5 _ (by decide) _ (by decide))
        (sideSeg6 _ (by decide) _ (by decide)) (sideFixed _ (by decide)).2.1
        (sideFixed _ (by decide)).2.2.1 (sideFixed _ (by decide)).2.2.2.1
        (sideFixed _ (by decide)).2.2.2.2.1 (sideFixed _ (by decide)).2.2.2.2.2, ?_⟩
     intro hs' hhs' hne
     fin_cases hhs' <;>
       first
       | exact absurd rfl hne
       | exact c6_count_zero t _ _ _ _ htop (hookPreOf _) (hookPreOf _)
           (build_hook_prompt_data t _ _) (build_hook_prompt_data t _ _)
           (by decide) (by decide)
           (sideSeg1 _ (by decide) _ (by decide)) (sideFixed _ (by decide)).1
           (sideSeg4diff _ (by decide) _ (by decide) (by decide))
           (sideSeg5 _ (by decide) _ (by decide)) (sideSeg6 _ (by decide) _ (by decide))
           (sideFixed _ (by decide)).2.1 (sideFixed _ (by decide)).2.2.1
           (sideFixed _ (by decide)).2.2.2.1 (sideFixed _ (by decide)).2.2.2.2.1
           (sideFixed _ (by decide)).2.2.2.2.2)

/-- C6 counterexample: with the topic
`"\n\nRequirements:\n- Start with a thought-provoking question about "`
the question-style fragment occurs twice in the question-style prompt,
so "exactly once" fails for arbitrary topics. -/
theorem C6_counterexample :
    countSub
        (build_hook_prompt "\n\nRequirements:\n- Start with a thought-provoking question about "
          "question" "neutral").data
        (build_main_prompt "\n\nRequirements:\n- Start with a thought-provoking question about "
          "30s" "neutral" "question" none "Autopostai.Video" true).data = 2 := by
  decide

/-- C6 witness at a newline-free topic. -/
theorem C6_witness :
    ('\n' ∉ ("cats" : String).data) ∧
      countSub (build_hook_prompt "cats" "question" "neutral").data
          (build_main_prompt "cats" "30s" "neutral" "question" none "Autopostai.Video" true).data =
        1 ∧
      countSub (build_hook_prompt "cats" "shock" "neutral").data
          (build_main_prompt "cats" "30s" "neutral" "question" none "Autopostai.Video" true).data =
        0 :=
  ⟨by decide,
    (C6_hook_fragment_occurrence "question" (by decide) "30s" (by decide) "neutral" (by decide)
        "cats" (by decide)).1,
    (C6_hook_fragment_occurrence "question" (by decide) "30s" (by decide) "neutral" (by decide)
        "cats" (by decide)).2 "shock" (by decide) (by decide)⟩
